import Mathlib

/-!
# Verification of the sjgl extraction-and-normalization engine

Shallow embedding of the core ETL functions of `src/app/core/etl_douyin.py`
(and the helper `_parse_range` / `_to_number` of
`src/app/ui/streamlit_app_simple.py`) together with proofs of the frozen
claims about them.

Modelling conventions:
* cell values are `Option String` (`none` models a pandas `NaN` / Python `None`);
* machine floats are modelled by `ℚ`; the Python builtin `float(str)` is
  modelled by `pyFloat`, which accepts the grammar
  `[ws] [+|-] digits [. digits] [(e|E) [+|-] digits] [ws]`
  (the special spellings `inf`/`nan` and digit underscores accepted by the
  CPython builtin are outside the fragment the engine ever sees and are not
  modelled; `pyFloat` returns `none` exactly where `float` raises `ValueError`);
* the NaN float produced by the web-UI helper `_to_number` is modelled
  explicitly by the variant type `PyF`;
* exception handling becomes `Option`/`Except`: the per-value
  `try/except` of `parse_fuzzy_numeric_range` maps every failing parse to
  the all-`none` triple exactly as the `except` branch appends three `None`s.
-/

set_option linter.unusedVariables false

/-! ## Kernel-computable rational arithmetic

The `Rat` arithmetic of the standard library is marked irreducible, which
blocks `decide`-style evaluation of the embedding on concrete inputs.  The
engine only ever adds rationals, multiplies a rational by an integer
constant, and divides a rational by a natural number, so these three
operations are (re)defined through `mkRat` and proved equal to the standard
field operations below (`qAdd_eq`, `qMulInt_eq`, `qDivNat_eq`,
`qOfNat_eq`). -/

/-- The rational `n`. -/
def qOfNat (n : ℕ) : ℚ := mkRat n 1

/-- `a + b` on `ℚ`, computably. -/
def qAdd (a b : ℚ) : ℚ := mkRat (a.num * b.den + b.num * a.den) (a.den * b.den)

/-- `a * k` for an integer `k`, computably. -/
def qMulInt (a : ℚ) (k : ℤ) : ℚ := mkRat (a.num * k) a.den

/-- `a / n` for a natural `n`, computably (`0` when `n = 0`, as in `ℚ`). -/
def qDivNat (a : ℚ) (n : ℕ) : ℚ := mkRat a.num (a.den * n)

/-! ## Basic Python string primitives -/

/-- ASCII whitespace recognized by Python `str.strip` (the engine only ever
strips ASCII blanks). -/
def isSpaceChar (c : Char) : Bool :=
  c = ' ' ∨ c = '\t' ∨ c = '\n' ∨ c = '\r' ∨ c = '\x0b' ∨ c = '\x0c'

/-- Python `str.strip()` on a character list. -/
def pystrip (l : List Char) : List Char :=
  ((l.dropWhile isSpaceChar).reverse.dropWhile isSpaceChar).reverse

/-- Python `str.replace(a, b)` for one-character patterns (replaces every
occurrence, as the builtin does). -/
def replaceAllChar (a b : Char) (l : List Char) : List Char :=
  l.map (fun c => if c = a then b else c)

/-- Python `str.replace(a, '')` for a one-character pattern. -/
def removeAllChar (a : Char) (l : List Char) : List Char :=
  l.filter (fun c => ¬ (c = a))

/-- Python `str.rstrip(c)`. -/
def pyRstripChar (c : Char) (l : List Char) : List Char :=
  (l.reverse.dropWhile (fun d => d = c)).reverse

/-- Split at every separator character, keeping empty fields: the semantics of
Python `str.split(sep)` with a one-character separator and of
`re.split` on a character class. `splitBy p "" = [""]`. -/
def splitBy (p : Char → Bool) : List Char → List (List Char)
  | [] => [[]]
  | c :: rest =>
    if p c then [] :: splitBy p rest
    else
      match splitBy p rest with
      | [] => [[c]]
      | q :: qs => (c :: q) :: qs

/-- Python `str.split('~')`. -/
def splitChar (sep : Char) (l : List Char) : List (List Char) :=
  splitBy (fun c => c = sep) l

/-- Value of a digit string, most significant first. -/
def digitsToNat (ds : List Char) : ℕ :=
  ds.foldl (fun a c => 10 * a + (c.toNat - 48)) 0

/-- `pat` is a prefix of the second argument. -/
def startsWith : List Char → List Char → Bool
  | [], _ => true
  | _ :: _, [] => false
  | p :: ps, c :: cs => p = c && startsWith ps cs

/-- `pat` occurs as a contiguous substring of the second argument. -/
def isSubList (pat : List Char) : List Char → Bool
  | [] => startsWith pat []
  | c :: rest => startsWith pat (c :: rest) || isSubList pat rest

/-- Python `a in s` on strings. -/
def strContains (pat s : String) : Bool :=
  isSubList pat.data s.data

/-- Replace the first occurrence of `pat` by `repl` (the semantics of the
polars expression `str.replace(pat, repl)` for a literal pattern, which
replaces only the first match). -/
def replaceFirstL (pat repl : List Char) : List Char → List Char
  | [] => []
  | c :: rest =>
    if startsWith pat (c :: rest) then repl ++ (c :: rest).drop pat.length
    else c :: replaceFirstL pat repl rest

/-- `str.replace(pat, repl)` of polars on `String`s (first occurrence only). -/
def replaceFirstStr (pat repl s : String) : String :=
  String.mk (replaceFirstL pat.data repl.data s.data)

/-! ## Model of the Python builtin `float` -/

/-- Core grammar of `float(str)` after whitespace stripping:
optional sign, digits with at most one point (at least one digit in total),
optional exponent. Returns `none` where the builtin raises `ValueError`. -/
def pyFloatCore (l : List Char) : Option ℚ :=
  let sgnAndRest : ℤ × List Char :=
    match l with
    | '+' :: r => (1, r)
    | '-' :: r => (-1, r)
    | _ => (1, l)
  let sgn := sgnAndRest.1
  let ipAndRest := sgnAndRest.2.span Char.isDigit
  let ip := ipAndRest.1
  let fpAndRest : List Char × List Char :=
    match ipAndRest.2 with
    | '.' :: r => r.span Char.isDigit
    | _ => ([], ipAndRest.2)
  let fp := fpAndRest.1
  if ip = [] ∧ fp = [] then none
  else
    let mant : ℚ := qAdd (qOfNat (digitsToNat ip))
      (qDivNat (qOfNat (digitsToNat fp)) (10 ^ fp.length))
    match fpAndRest.2 with
    | [] => some (qMulInt mant sgn)
    | c :: r =>
      if c = 'e' ∨ c = 'E' then
        let esAndRest : Bool × List Char :=
          match r with
          | '+' :: t => (false, t)
          | '-' :: t => (true, t)
          | _ => (false, r)
        let edAndRest := esAndRest.2.span Char.isDigit
        if edAndRest.1 = [] ∨ ¬ (edAndRest.2 = []) then none
        else if esAndRest.1 then
          some (qMulInt (qDivNat mant (10 ^ digitsToNat edAndRest.1)) sgn)
        else
          some (qMulInt (qMulInt mant (((10 : ℕ) ^ digitsToNat edAndRest.1 : ℕ) : ℤ)) sgn)
      else none

/-- Python `float(str)` (strips surrounding whitespace, then parses). -/
def pyFloat (l : List Char) : Option ℚ :=
  pyFloatCore (pystrip l)

/-- Python `str.isdigit()` restricted to ASCII digits (the engine only feeds
it ASCII numeric text): non-empty and all digits. -/
def pyIsDigit (l : List Char) : Bool :=
  ¬ (l = []) && l.all Char.isDigit

/-! ## `parse_fuzzy_numeric_range` (src/app/core/etl_douyin.py, lines 596-683) -/

/-- Result triple for one cell: the values appended to the `min_values`,
`max_values` and `avg_values` lists for that position. -/
structure FuzzyTriple where
  min : Option ℚ
  max : Option ℚ
  avg : Option ℚ
deriving DecidableEq, Repr

/-- `str(value).strip().replace('万','w').replace('W','w').replace('%','')`:
the cleaning applied to every cell before parsing. -/
def cleanVal (v : String) : List Char :=
  removeAllChar '%' (replaceAllChar 'W' 'w' (replaceAllChar '万' 'w' (pystrip v.data)))

/-- One bound of a `~` range: `parts[i].strip()`, then
`float(part.replace('w','')) * 10000` if the ten-thousand marker is present,
else `float(part)`.  `none` models the `ValueError` caught by the enclosing
`except`. -/
def parseRangeBound (part : List Char) : Option ℚ :=
  if 'w' ∈ pystrip part then
    (pyFloat (removeAllChar 'w' (pystrip part))).map (fun x => qMulInt x 10000)
  else pyFloat (pystrip part)

/-- Body of the per-value loop of `parse_fuzzy_numeric_range` after the
cleaning step: range branch on `~`, otherwise single value with the
ten-thousand marker or the `isdigit` precheck. -/
def parseFuzzyStr (str_val : List Char) : FuzzyTriple :=
  if '~' ∈ str_val then
    match splitChar '~' str_val with
    | [p1, p2] =>
      match parseRangeBound p1, parseRangeBound p2 with
      | some mn, some mx => ⟨some mn, some mx, some (qDivNat (qAdd mn mx) 2)⟩
      | _, _ => ⟨none, none, none⟩
    | _ => ⟨none, none, none⟩
  else
    if 'w' ∈ str_val then
      match (pyFloat (removeAllChar 'w' str_val)).map (fun x => qMulInt x 10000) with
      | some val => ⟨some val, some val, some val⟩
      | none => ⟨none, none, none⟩
    else
      if pyIsDigit (removeAllChar '-' (removeAllChar '.' str_val)) then
        match pyFloat str_val with
        | some val => ⟨some val, some val, some val⟩
        | none => ⟨none, none, none⟩
      else ⟨none, none, none⟩

/-- One iteration of the loop of `parse_fuzzy_numeric_range`: `None` and the
empty string short-circuit to the null triple, everything else is cleaned and
parsed; any parse failure-exception degrades to the null triple. -/
def parseFuzzyValue (value : Option String) : FuzzyTriple :=
  match value with
  | none => ⟨none, none, none⟩
  | some v =>
    if v = "" then ⟨none, none, none⟩
    else parseFuzzyStr (cleanVal v)

/-- `parse_fuzzy_numeric_range(series, unit_multiplier)`: the three collected
lists `min_values`, `max_values`, `avg_values`.  The `unit_multiplier`
parameter is declared (default `1`) and, as in the source, never read: the
ten-thousand factor is hard-coded inside the per-value parse. -/
def parse_fuzzy_numeric_range (series : List (Option String))
    (unit_multiplier : ℤ := 1) :
    List (Option ℚ) × List (Option ℚ) × List (Option ℚ) :=
  (series.map (fun v => (parseFuzzyValue v).min),
   series.map (fun v => (parseFuzzyValue v).max),
   series.map (fun v => (parseFuzzyValue v).avg))

/-! ## `_detect_tables_in_sheet`: header-row detection
(src/app/core/etl_douyin.py, lines 291-436) -/

/-- The `HEADER_KEYWORDS` vocabulary (lines 307-312), verbatim. -/
def HEADER_KEYWORDS : List String :=
  ["商品", "销量", "销售额", "佣金", "转化率", "链接", "分类",
   "商品标题", "商品链接", "商品价格", "店铺", "品牌", "类目",
   "佣金比例", "直播销售额", "商品卡销售额", "近30天销量",
   "周销量", "近1年销量", "30天转化率", "上架时间", "达人昵称"]

/-- The core-combination subset `{'排名', '商品', '佣金比例'}` (line 331). -/
def CORE_KEYWORDS : List String := ["排名", "商品", "佣金比例"]

/-- `str(cell).strip()` of a grid cell, dropping `NaN` cells and cells that
strip to the empty string (the filter of the set comprehension at line 319). -/
def trimCell : Option String → Option String
  | none => none
  | some s =>
    let t := pystrip s.data
    if t = [] then none else some (String.mk t)

/-- `row_values`: the SET of distinct non-blank trimmed cell values of a row
(line 319; a Python set comprehension, so duplicates collapse). -/
def rowValues (row : List (Option String)) : List String :=
  (row.filterMap trimCell).dedup

/-- `keyword_matches = len(HEADER_KEYWORDS.intersection(row_values))`. -/
def keywordMatches (row : List (Option String)) : ℕ :=
  ((rowValues row).filter (fun s => s ∈ HEADER_KEYWORDS)).length

/-- `non_empty_cells = len(row_values)`: the number of DISTINCT non-blank
trimmed values (not the number of non-blank cells). -/
def nonEmptyCells (row : List (Option String)) : ℕ :=
  (rowValues row).length

/-- `len({'排名','商品','佣金比例'}.intersection(row_values))`. -/
def coreMatches (row : List (Option String)) : ℕ :=
  ((rowValues row).filter (fun s => s ∈ CORE_KEYWORDS)).length

/-- The header-candidate test of lines 334-339: the three-armed threshold
rule, then `cell_ratio = non_empty_cells / len(row.values) > 0.4`. -/
def isHeaderCandidate (row : List (Option String)) : Bool :=
  let kw := keywordMatches row
  let ne := nonEmptyCells row
  let core := coreMatches row
  (decide ((kw ≥ 2 ∧ ne ≥ 4) ∨ (kw ≥ 1 ∧ ne ≥ 5) ∨ (core ≥ 2 ∧ ne ≥ 3))) &&
  (decide (qDivNat (qOfNat ne) row.length > mkRat 2 5))

/-- `possible_header_indices`: the pre-scan of lines 317-339 collects the
indices of the header-candidate rows in ascending row order. -/
def possibleHeaderIndices (grid : List (List (Option String))) : List ℕ :=
  (grid.enum.filter (fun p => isHeaderCandidate p.2)).map (fun p => p.1)

/-- Block construction of lines 359-362: for the `i`-th header index `h`,
the data block is rows `h+1` up to (exclusive) the next header index,
or up to the grid length for the last header. -/
def blockRanges : List ℕ → ℕ → List (ℕ × ℕ)
  | [], _ => []
  | [h], n => [(h + 1, n)]
  | h :: h2 :: rest, n => (h + 1, h2) :: blockRanges (h2 :: rest) n

/-! ### Header de-duplication (lines 380-392) -/

/-- Update the value stored for key `c` in the `col_counts` dict. -/
def updateCount (c : String) (k : ℕ) : List (String × ℕ) → List (String × ℕ)
  | [] => []
  | (d, v) :: rest => if d = c then (d, k) :: rest else (d, v) :: updateCount c k rest

/-- The loop body of lines 383-390: a fresh name passes through and is
recorded with count `0`; a repeated name gets `_<count>` appended after
incrementing its count. -/
def uniqueHeaderGo : List String → List (String × ℕ) → List String
  | [], _ => []
  | c :: rest, counts =>
    match counts.lookup c with
    | some k => (c ++ "_" ++ toString (k + 1)) :: uniqueHeaderGo rest (updateCount c (k + 1) counts)
    | none => c :: uniqueHeaderGo rest ((c, 0) :: counts)

/-- `unique_header` as computed from a block header list. -/
def uniqueHeader (header : List String) : List String :=
  uniqueHeaderGo header []

/-! ## `clean_common_fields` per-value pipelines
(src/app/core/etl_douyin.py, lines 686-821) -/

/-- Polars `cast(Float64, strict=False)` on a string cell: `none` on parse
failure instead of raising.  The accepted grammar is the plain float literal
grammar without surrounding whitespace. -/
def castF64 (s : String) : Option ℚ :=
  pyFloatCore s.data

/-- The commission-percentage pipeline of lines 710-717:
`col('佣金比例').str.replace('%','').str.replace('百分比','')
 .cast(Float64, strict=False).truediv(100)`, acting on one cell
(`none` cells stay `none` through every step). -/
def clean_commission_value (v : Option String) : Option ℚ :=
  ((v.map (replaceFirstStr "%" "")).map (replaceFirstStr "百分比" "")).bind
    (fun s => castF64 s) |>.map (fun x => qDivNat x 100)

/-- The conversion-rate pipeline of lines 762-779:
`parse_fuzzy_numeric_range(series)` followed by dividing each of the three
result series by 100 (serieswise division maps over nulls). -/
def clean_rate_series (series : List (Option String)) :
    List (Option ℚ) × List (Option ℚ) × List (Option ℚ) :=
  let r := parse_fuzzy_numeric_range series
  (r.1.map (fun o => o.map (fun x => qDivNat x 100)),
   r.2.1.map (fun o => o.map (fun x => qDivNat x 100)),
   r.2.2.map (fun o => o.map (fun x => qDivNat x 100)))

/-! ## `process_douyin_export` head (lines 895-960) -/

/-- The exact-name priority list of line 937. -/
def PRIORITY_TABLES : List String :=
  ["抖音销量榜", "SKU商品库", "直播销量榜", "商品卡销量榜"]

/-- The substring keywords of line 945 used for fuzzy main-table matching. -/
def NAME_KEYWORDS : List String := ["销量", "商品", "榜", "库"]

/-- Main-table selection, Step 2 of `process_douyin_export` (lines 933-957):
tables are the parsed `(name, row_count)` mapping in insertion order.
Priority 1: first exact priority name present and non-empty; priority 2:
first non-empty table whose name contains one of the keywords; priority 3:
first non-empty table. -/
def selectMainTable (tables : List (String × ℕ)) : Option String :=
  match PRIORITY_TABLES.find? (fun p =>
      match tables.lookup p with
      | some h => decide (h > 0)
      | none => false) with
  | some p => some p
  | none =>
    match tables.find? (fun t =>
        decide (t.2 > 0) && NAME_KEYWORDS.any (fun k => strContains k t.1)) with
    | some t => some t.1
    | none => (tables.find? (fun t => decide (t.2 > 0))).map (fun t => t.1)

/-- The failure-surfacing head of `process_douyin_export` (lines 921-960)
over the parse result: an empty table mapping raises
`ValueError("未能解析出任何表格数据")` (line 929), a mapping with no valid
main table raises `ValueError("未找到有效的主表数据")` (line 960), otherwise
the chosen main-table name flows on to cleaning. -/
def process_douyin_export (tables : List (String × ℕ)) : Except String String :=
  if tables = [] then Except.error "未能解析出任何表格数据"
  else
    match selectMainTable tables with
    | some n => Except.ok n
    | none => Except.error "未找到有效的主表数据"

/-! ## The web-UI normalizer `_to_number` / `_parse_range`
(src/app/ui/streamlit_app_simple.py, lines 13-40) -/

deriving instance DecidableEq for Except

/-- A CPython float as produced by `_to_number`: either a finite value or
the `float("nan")` returned when the numeric regex does not match. -/
inductive PyF where
  | num (q : ℚ)
  | nan
deriving DecidableEq, Repr

/-- Python `<` on floats: any comparison against NaN is false. -/
def pyfLt : PyF → PyF → Bool
  | PyF.num a, PyF.num b => decide (a < b)
  | _, _ => false

/-- Python `>` on floats: any comparison against NaN is false. -/
def pyfGt : PyF → PyF → Bool
  | PyF.num a, PyF.num b => decide (a > b)
  | _, _ => false

/-- Python `+` on floats: NaN propagates. -/
def pyfAdd : PyF → PyF → PyF
  | PyF.num a, PyF.num b => PyF.num (qAdd a b)
  | _, _ => PyF.nan

/-- Python `x / n` for a positive integer length: NaN propagates. -/
def pyfDivNat (x : PyF) (n : ℕ) : PyF :=
  match x with
  | PyF.num a => PyF.num (qDivNat a n)
  | PyF.nan => PyF.nan

/-- CPython `min(nums)` via pairwise `<` against the running minimum. -/
def pyMin (x : PyF) (rest : List PyF) : PyF :=
  rest.foldl (fun cur it => if pyfLt it cur then it else cur) x

/-- CPython `max(nums)` via pairwise `>` against the running maximum. -/
def pyMax (x : PyF) (rest : List PyF) : PyF :=
  rest.foldl (fun cur it => if pyfGt it cur then it else cur) x

/-- CPython `sum(nums)` (starts from 0; NaN propagates). -/
def pySum (l : List PyF) : PyF :=
  l.foldl pyfAdd (PyF.num 0)

/-- `UNIT_MAP` lookup through the matched optional unit character, after
`unit.lower()`: `[w万k千]` case-insensitively, factor 10000 or 1000,
default 1 (lines 13 and 20-25). -/
def unitFactor (rest : List Char) : ℤ :=
  match rest with
  | c :: _ =>
    if c = 'w' ∨ c = 'W' then 10000
    else if c = '万' then 10000
    else if c = 'k' ∨ c = 'K' then 1000
    else if c = '千' then 1000
    else 1
  | [] => 1

/-- `_to_number(token)` (lines 15-25): percent suffix divides by 100;
otherwise match `([0-9.]+)\s*([w万k千]?)` at the start, returning NaN when
the regex fails; `Except.error` models an escaping `ValueError` from
`float`. -/
def toNumber (token : List Char) : Except Unit PyF :=
  let t := pystrip token
  if t.getLast? = some '%' then
    match pyFloat (pyRstripChar '%' t) with
    | some q => Except.ok (PyF.num (qDivNat q 100))
    | none => Except.error ()
  else
    let vcs := t.takeWhile (fun c => c.isDigit || c = '.')
    if vcs = [] then Except.ok PyF.nan
    else
      let rest := (t.drop vcs.length).dropWhile isSpaceChar
      match pyFloat vcs with
      | some q => Except.ok (PyF.num (qMulInt q (unitFactor rest)))
      | none => Except.error ()

/-- Left-to-right effectful map, as a Python list comprehension evaluates
`_to_number` over the tokens (first exception wins). -/
def mapToNumber : List (List Char) → Except Unit (List PyF)
  | [] => Except.ok []
  | t :: ts =>
    match toNumber t with
    | Except.error e => Except.error e
    | Except.ok x =>
      match mapToNumber ts with
      | Except.error e => Except.error e
      | Except.ok xs => Except.ok (x :: xs)

/-- `_parse_range(value)` (lines 27-40): split on the character class
`[~-]`, drop blank parts, convert each part, then `(None,None,None)` for no
numbers, the single number tripled, or `(min, max, mean)`. -/
def parse_range_ui (value : String) :
    Except Unit (Option PyF × Option PyF × Option PyF) :=
  let parts := splitBy (fun c => c = '~' ∨ c = '-') value.data
  let toks := parts.filter (fun p => ¬ (pystrip p = []))
  match mapToNumber toks with
  | Except.error e => Except.error e
  | Except.ok [] => Except.ok (none, none, none)
  | Except.ok [x] => Except.ok (some x, some x, some x)
  | Except.ok (x :: y :: rest) =>
    Except.ok (some (pyMin x (y :: rest)), some (pyMax x (y :: rest)),
      some (pyfDivNat (pySum (x :: y :: rest)) (x :: y :: rest).length))

/-- Replace every `~` by `-` in a string. -/
def tildeToHyphen (s : String) : String :=
  String.mk (s.data.map (fun c => if c = '~' then '-' else c))

/-! ## Spec-side formulations of the header-candidate rule (for claim C4) -/

/-- The set of distinct non-blank trimmed cell values of a row, as a
`Finset`. -/
def rowValueSet (row : List (Option String)) : Finset String :=
  (row.filterMap trimCell).toFinset

/-- The header-candidate rule exactly as the claim words it: `keyword_matches`
and `core_matches` as intersection cardinalities over the distinct values,
but `non_empty` as the COUNT OF NON-BLANK CELLS (with multiplicity). -/
def headerCandidateClaimed (row : List (Option String)) : Prop :=
  (((rowValueSet row ∩ HEADER_KEYWORDS.toFinset).card ≥ 2 ∧
      (row.filterMap trimCell).length ≥ 4) ∨
   ((rowValueSet row ∩ HEADER_KEYWORDS.toFinset).card ≥ 1 ∧
      (row.filterMap trimCell).length ≥ 5) ∨
   ((rowValueSet row ∩ CORE_KEYWORDS.toFinset).card ≥ 2 ∧
      (row.filterMap trimCell).length ≥ 3)) ∧
    ((row.filterMap trimCell).length : ℚ) / (row.length : ℚ) > 2/5

/-- The amended header-candidate rule: as the claim words it, except that
`non_empty` is the number of DISTINCT non-blank trimmed cell values, matching
the set comprehension of the source. -/
def headerCandidateAmended (row : List (Option String)) : Prop :=
  (((rowValueSet row ∩ HEADER_KEYWORDS.toFinset).card ≥ 2 ∧ (rowValueSet row).card ≥ 4) ∨
   ((rowValueSet row ∩ HEADER_KEYWORDS.toFinset).card ≥ 1 ∧ (rowValueSet row).card ≥ 5) ∨
   ((rowValueSet row ∩ CORE_KEYWORDS.toFinset).card ≥ 2 ∧ (rowValueSet row).card ≥ 3)) ∧
    ((rowValueSet row).card : ℚ) / (row.length : ℚ) > 2/5

/-- A row with a repeated keyword cell: 4 non-blank cells but only 3
distinct non-blank values. -/
def c4Row : List (Option String) :=
  [some "商品", some "商品", some "销量", some "佣金", some ""]

/-! ## A concrete 15-row grid for the segmentation claim C5 -/

/-- A header-like row: 4 vocabulary keywords among 5 distinct non-blank
cells, hence a header candidate. -/
def hdrRow : List (Option String) :=
  [some "排名", some "商品", some "佣金比例", some "销量", some "销售额"]

/-- A data row carrying no vocabulary keyword, hence not a candidate. -/
def dataRow (k : ℕ) : List (Option String) :=
  [some (toString k), some ("品" ++ toString k), some "10", some "100", some "200"]

/-- A 15-row grid whose header candidates sit exactly at indices 2 and 9:
a one-cell title row, a blank row, a header at 2, data rows 3-8, a header at
9, data rows 10-14. -/
def demoGrid : List (List (Option String)) :=
  [[some "抖音销量榜", none, none, none, none],
   [none, none, none, none, none],
   hdrRow,
   dataRow 1, dataRow 2, dataRow 3, dataRow 4, dataRow 5, dataRow 6,
   hdrRow,
   dataRow 7, dataRow 8, dataRow 9, dataRow 10, dataRow 11]

/-! # Theorems -/

/-! ## Bridges between the computable arithmetic and the `ℚ` field structure -/

theorem qOfNat_eq (n : ℕ) : qOfNat n = (n : ℚ) := by
  simp [qOfNat, Rat.mkRat_eq_div]

theorem qAdd_eq (a b : ℚ) : qAdd a b = a + b := by
  have ha : (a.den : ℚ) ≠ 0 := by exact_mod_cast a.den_nz
  have hb : (b.den : ℚ) ≠ 0 := by exact_mod_cast b.den_nz
  rw [qAdd, Rat.mkRat_eq_div]
  conv_rhs => rw [← Rat.num_div_den a, ← Rat.num_div_den b]
  rw [div_add_div _ _ ha hb]
  push_cast
  ring_nf

theorem qMulInt_eq (a : ℚ) (k : ℤ) : qMulInt a k = a * k := by
  rw [qMulInt, Rat.mkRat_eq_div]
  push_cast
  rw [mul_div_right_comm, Rat.num_div_den]

theorem qDivNat_eq (a : ℚ) (n : ℕ) : qDivNat a n = a / (n : ℚ) := by
  rw [qDivNat, Rat.mkRat_eq_div]
  rcases eq_or_ne n 0 with h | h
  · simp [h]
  · push_cast
    rw [div_mul_eq_div_div, Rat.num_div_den]

theorem qHalfSum_eq (a b : ℚ) : qDivNat (qAdd a b) 2 = (a + b) / 2 := by
  rw [qAdd_eq, qDivNat_eq]
  norm_num

/-! ## Case analysis of the per-value fuzzy parse -/

/-- Every branch of the per-value parse returns either the all-null triple,
a range triple whose average is half the sum of the bounds, or a tripled
single value. -/
theorem parseFuzzyStr_cases (s : List Char) :
    parseFuzzyStr s = ⟨none, none, none⟩ ∨
    (∃ a b, parseFuzzyStr s = ⟨some a, some b, some (qDivNat (qAdd a b) 2)⟩) ∨
    (∃ a, parseFuzzyStr s = ⟨some a, some a, some a⟩) := by
  unfold parseFuzzyStr
  repeat' split
  all_goals first
    | exact Or.inl rfl
    | exact Or.inr (Or.inl ⟨_, _, rfl⟩)
    | exact Or.inr (Or.inr ⟨_, rfl⟩)

theorem parseFuzzyValue_cases (v : Option String) :
    parseFuzzyValue v = ⟨none, none, none⟩ ∨
    (∃ a b, parseFuzzyValue v = ⟨some a, some b, some (qDivNat (qAdd a b) 2)⟩) ∨
    (∃ a, parseFuzzyValue v = ⟨some a, some a, some a⟩) := by
  cases v with
  | none => exact Or.inl rfl
  | some s =>
    by_cases h : s = ""
    · left
      simp [parseFuzzyValue, h]
    · simpa [parseFuzzyValue, h] using parseFuzzyStr_cases (cleanVal s)

/-- The range branch of the per-value parse, explicitly. -/
theorem parseFuzzyValue_range (v : String) (p1 p2 : List Char) (a b : ℚ)
    (hne : ¬ (v = "")) (hmem : '~' ∈ cleanVal v)
    (hsplit : splitChar '~' (cleanVal v) = [p1, p2])
    (h1 : parseRangeBound p1 = some a) (h2 : parseRangeBound p2 = some b) :
    parseFuzzyValue (some v) = ⟨some a, some b, some (qDivNat (qAdd a b) 2)⟩ := by
  simp only [parseFuzzyValue]
  rw [if_neg hne]
  unfold parseFuzzyStr
  rw [if_pos hmem, hsplit]
  simp only [h1, h2]

/-! ## C1 -/

/-- C1: the cell value "7.5w~10w" normalizes to min 75000, max 100000,
avg 87500; in general a range bound containing the ten-thousand marker
parses to its decimal literal times 10000, and the average of a parsed
range is the arithmetic mean of its two bounds. -/
theorem c1_ten_thousand_marker :
    parse_fuzzy_numeric_range [some "7.5w~10w"] 1 =
      ([some 75000], [some 100000], [some 87500]) ∧
    (∀ (part : List Char) (x : ℚ), 'w' ∈ pystrip part →
      pyFloat (removeAllChar 'w' (pystrip part)) = some x →
      parseRangeBound part = some (x * 10000)) ∧
    (∀ (v : String) (p1 p2 : List Char) (a b : ℚ), ¬ (v = "") →
      '~' ∈ cleanVal v → splitChar '~' (cleanVal v) = [p1, p2] →
      parseRangeBound p1 = some a → parseRangeBound p2 = some b →
      (parseFuzzyValue (some v)).avg = some ((a + b) / 2)) := by
  refine ⟨by decide, ?_, ?_⟩
  · intro part x hw hx
    unfold parseRangeBound
    rw [if_pos hw, hx]
    simp only [Option.map_some']
    rw [qMulInt_eq]
    norm_num
  · intro v p1 p2 a b hne hmem hsplit h1 h2
    rw [parseFuzzyValue_range v p1 p2 a b hne hmem hsplit h1 h2]
    rw [qHalfSum_eq]

/-- Witness for C1: at the concrete bound "3w" and the concrete range
"1~3" the hypotheses of the general parts hold and give 30000 and mean 2. -/
theorem c1_witness :
    parseRangeBound "3w".data = some 30000 ∧
    (parseFuzzyValue (some "1~3")).avg = some 2 := by
  constructor
  · have h := c1_ten_thousand_marker.2.1 "3w".data 3 (by decide) (by decide)
    rw [h]
    norm_num
  · have h := c1_ten_thousand_marker.2.2 "1~3" "1".data "3".data 1 3
      (by decide) (by decide) (by decide) (by decide) (by decide)
    rw [h]
    norm_num

/-! ## C7 -/

/-- C7: for a range value whose bounds both parse, min is the left bound and
max is the right bound in the original text order, with no sorting; in
particular "10w~5w" gives min 100000 strictly greater than max 50000. -/
theorem c7_order_preserved :
    parse_fuzzy_numeric_range [some "10w~5w"] 1 =
      ([some 100000], [some 50000], [some 75000]) ∧
    (∀ (v : String) (p1 p2 : List Char) (a b : ℚ), ¬ (v = "") →
      '~' ∈ cleanVal v → splitChar '~' (cleanVal v) = [p1, p2] →
      parseRangeBound p1 = some a → parseRangeBound p2 = some b →
      (parseFuzzyValue (some v)).min = some a ∧
      (parseFuzzyValue (some v)).max = some b) := by
  refine ⟨by decide, ?_⟩
  intro v p1 p2 a b hne hmem hsplit h1 h2
  rw [parseFuzzyValue_range v p1 p2 a b hne hmem hsplit h1 h2]
  exact ⟨rfl, rfl⟩

/-- Witness for C7: the concrete range "2~9" satisfies the hypotheses and
keeps its left bound as min and right bound as max. -/
theorem c7_witness :
    (parseFuzzyValue (some "2~9")).min = some 2 ∧
    (parseFuzzyValue (some "2~9")).max = some 9 :=
  c7_order_preserved.2 "2~9" "2".data "9".data 2 9
    (by decide) (by decide) (by decide) (by decide) (by decide)

/-! ## C3 -/

/-- C3: the normalizer is total (one output per input position, no
exception escapes: the embedding is a total function), a failing value
yields null in all three outputs at its position only, the three outputs at
a position are always all null or all non-null, and avg is (min+max)/2
whenever both bounds are present. -/
theorem c3_no_partial_nulls :
    (∀ (series : List (Option String)) (m : ℤ),
      (parse_fuzzy_numeric_range series m).1.length = series.length ∧
      (parse_fuzzy_numeric_range series m).2.1.length = series.length ∧
      (parse_fuzzy_numeric_range series m).2.2.length = series.length) ∧
    (∀ v : Option String,
      parseFuzzyValue v = ⟨none, none, none⟩ ∨
      ∃ a b c, parseFuzzyValue v = ⟨some a, some b, some c⟩) ∧
    (∀ (v : Option String) (a b : ℚ),
      (parseFuzzyValue v).min = some a → (parseFuzzyValue v).max = some b →
      (parseFuzzyValue v).avg = some ((a + b) / 2)) ∧
    (∀ (series : List (Option String)) (m : ℤ) (i : ℕ),
      (parse_fuzzy_numeric_range series m).1[i]? =
        series[i]?.map (fun v => (parseFuzzyValue v).min) ∧
      (parse_fuzzy_numeric_range series m).2.1[i]? =
        series[i]?.map (fun v => (parseFuzzyValue v).max) ∧
      (parse_fuzzy_numeric_range series m).2.2[i]? =
        series[i]?.map (fun v => (parseFuzzyValue v).avg)) := by
  refine ⟨?_, ?_, ?_, ?_⟩
  · intro series m
    simp [parse_fuzzy_numeric_range]
  · intro v
    rcases parseFuzzyValue_cases v with h | ⟨a, b, h⟩ | ⟨a, h⟩
    · exact Or.inl h
    · exact Or.inr ⟨a, b, _, h⟩
    · exact Or.inr ⟨a, a, a, h⟩
  · intro v a b hmin hmax
    rcases parseFuzzyValue_cases v with h | ⟨a0, b0, h⟩ | ⟨a0, h⟩
    · rw [h] at hmin
      exact absurd hmin (by simp)
    · rw [h] at hmin hmax ⊢
      obtain rfl := Option.some.inj hmin
      obtain rfl := Option.some.inj hmax
      rw [qHalfSum_eq]
    · rw [h] at hmin hmax ⊢
      obtain rfl := Option.some.inj hmin
      obtain rfl := Option.some.inj hmax
      have hh : (a0 + a0) / 2 = a0 := by ring
      rw [hh]
  · intro series m i
    simp [parse_fuzzy_numeric_range]

/-- Witness for C3: at the concrete range "2~4" both bounds are present and
the average is their mean. -/
theorem c3_witness : (parseFuzzyValue (some "2~4")).avg = some 3 := by
  have h := c3_no_partial_nulls.2.2.1 (some "2~4") 2 4 (by decide) (by decide)
  rw [h]
  norm_num

/-! ## C10 -/

/-- C10: the `unit_multiplier` parameter of `parse_fuzzy_numeric_range` is
dead: any two multiplier values give identical output series (the factor
10000 is hard-coded in the parse), e.g. multiplier 7 still scales "1w" by
10000. -/
theorem c10_unit_multiplier_dead :
    (∀ (series : List (Option String)) (m1 m2 : ℤ),
      parse_fuzzy_numeric_range series m1 = parse_fuzzy_numeric_range series m2) ∧
    parse_fuzzy_numeric_range [some "1w"] 7 =
      ([some 10000], [some 10000], [some 10000]) := by
  exact ⟨fun _ _ _ => rfl, by decide⟩

/-! ## C2 -/

/-- A character renaming that maps separators to separators and fixes every
non-separator leaves `splitBy` unchanged. -/
theorem splitBy_map_sep (p : Char → Bool) (f : Char → Char)
    (hf : ∀ c, p (f c) = p c) (hid : ∀ c, p c = false → f c = c) :
    ∀ l : List Char, splitBy p (l.map f) = splitBy p l := by
  intro l
  induction l with
  | nil => rfl
  | cons c rest ih =>
    by_cases hpc : p c = true
    · simp only [List.map_cons, splitBy, hf c, hpc, if_true, ih]
    · have hpc2 : p c = false := by simpa using hpc
      simp only [List.map_cons, splitBy, hf c, hpc2, hid c hpc2, ih]

/-- C2 counterexample: the core normalizer does NOT treat the hyphen as a
range separator, so "1w-2.5w" and "1w~2.5w" give different results: the
tilde spelling parses to 10000/25000/17500 while the hyphen spelling
degrades to the all-null triple. -/
theorem c2_counterexample :
    parse_fuzzy_numeric_range [some "1w-2.5w"] 1 ≠
      parse_fuzzy_numeric_range [some "1w~2.5w"] 1 ∧
    parse_fuzzy_numeric_range [some "1w~2.5w"] 1 =
      ([some 10000], [some 25000], [some 17500]) ∧
    parse_fuzzy_numeric_range [some "1w-2.5w"] 1 = ([none], [none], [none]) := by
  refine ⟨by decide, by decide, by decide⟩

/-- C2 amended: only the web-UI helper `_parse_range` recognizes both
separators — there, replacing every `~` by `-` never changes the result,
and "1w-2.5w" and "1w~2.5w" both give (10000, 25000, 17500) — while the
core `parse_fuzzy_numeric_range` recognizes only the tilde, mapping
"1w~2.5w" to 10000/25000/17500 but "1w-2.5w" to null/null/null. -/
theorem c2_separator_amended :
    (∀ s : String, parse_range_ui (tildeToHyphen s) = parse_range_ui s) ∧
    parse_range_ui "1w-2.5w" =
      Except.ok (some (PyF.num 10000), some (PyF.num 25000), some (PyF.num 17500)) ∧
    parse_range_ui "1w~2.5w" =
      Except.ok (some (PyF.num 10000), some (PyF.num 25000), some (PyF.num 17500)) ∧
    parse_fuzzy_numeric_range [some "1w~2.5w"] 1 =
      ([some 10000], [some 25000], [some 17500]) ∧
    parse_fuzzy_numeric_range [some "1w-2.5w"] 1 = ([none], [none], [none]) := by
  refine ⟨?_, by decide, by decide, by decide, by decide⟩
  intro s
  unfold parse_range_ui tildeToHyphen
  rw [show (String.mk (s.data.map (fun c => if c = '~' then '-' else c))).data =
        s.data.map (fun c => if c = '~' then '-' else c) from rfl]
  rw [splitBy_map_sep (fun c => c = '~' ∨ c = '-') (fun c => if c = '~' then '-' else c)
    (fun c => by
      by_cases h1 : c = '~'
      · subst h1; decide
      · simp [h1])
    (fun c h => by
      by_cases h1 : c = '~'
      · subst h1; simp at h
      · simp [h1])
    s.data]

/-! ## C4 -/

/-- On a deduplicated list, counting the members of `K` computes the
cardinality of the intersection of the corresponding finite sets. -/
theorem dedup_filter_mem_length (l K : List String) :
    (l.dedup.filter (fun s => s ∈ K)).length = (l.toFinset ∩ K.toFinset).card := by
  have hnd : (l.dedup.filter (fun s => decide (s ∈ K))).Nodup :=
    (List.nodup_dedup l).filter _
  rw [← List.toFinset_card_of_nodup hnd]
  congr 1
  ext x
  simp [List.mem_filter, List.mem_dedup]

theorem keywordMatches_card (row : List (Option String)) :
    keywordMatches row = (rowValueSet row ∩ HEADER_KEYWORDS.toFinset).card :=
  dedup_filter_mem_length (row.filterMap trimCell) HEADER_KEYWORDS

theorem coreMatches_card (row : List (Option String)) :
    coreMatches row = (rowValueSet row ∩ CORE_KEYWORDS.toFinset).card :=
  dedup_filter_mem_length (row.filterMap trimCell) CORE_KEYWORDS

theorem nonEmptyCells_card (row : List (Option String)) :
    nonEmptyCells row = (rowValueSet row).card :=
  (List.card_toFinset (row.filterMap trimCell)).symm

/-- The computable ratio test agrees with the rational inequality of the
spec text. -/
theorem ratio_gt_iff (ne w : ℕ) :
    qDivNat (qOfNat ne) w > mkRat 2 5 ↔ (ne : ℚ) / (w : ℚ) > 2/5 := by
  rw [qDivNat_eq, qOfNat_eq, Rat.mkRat_eq_div]
  norm_num

/-- C4 counterexample: with `non_empty` read as the count of non-blank
cells (as the claim states it), the row
`["商品", "商品", "销量", "佣金", ""]` would be a header candidate, but the
code counts DISTINCT non-blank values and does not mark it, so the claimed
equivalence fails at this row. -/
theorem c4_counterexample :
    headerCandidateClaimed c4Row ∧ isHeaderCandidate c4Row = false ∧
    ¬ (isHeaderCandidate c4Row = true ↔ headerCandidateClaimed c4Row) := by
  have h1 : headerCandidateClaimed c4Row := by
    constructor
    · left
      exact ⟨by decide, by decide⟩
    · have e1 : (c4Row.filterMap trimCell).length = 4 := by decide
      have e2 : c4Row.length = 5 := by decide
      rw [e1, e2]
      norm_num
  have h2 : isHeaderCandidate c4Row = false := by decide
  refine ⟨h1, h2, fun hiff => ?_⟩
  have h3 := hiff.mpr h1
  rw [h2] at h3
  exact Bool.false_ne_true h3

/-- C4 amended: a row is marked a header candidate if and only if the
three-armed threshold rule holds for `keyword_matches`, `core_matches` and
`non_empty` all computed over the set of DISTINCT non-blank trimmed cell
values, together with the `non_empty / row_width > 0.4` ratio test. -/
theorem c4_header_rule_amended (row : List (Option String)) :
    isHeaderCandidate row = true ↔ headerCandidateAmended row := by
  unfold isHeaderCandidate headerCandidateAmended
  simp only [Bool.and_eq_true, decide_eq_true_eq, keywordMatches_card,
    coreMatches_card, nonEmptyCells_card, ratio_gt_iff]

/-- Witness for C4: the keyword-rich row `hdrRow` is marked by the code and
satisfies the amended rule. -/
theorem c4_witness : isHeaderCandidate hdrRow = true ∧ headerCandidateAmended hdrRow := by
  have h : isHeaderCandidate hdrRow = true := by decide
  exact ⟨h, (c4_header_rule_amended hdrRow).mp h⟩

/-! ## C5 -/

/-- `blockRanges` sends the `i`-th header index `a` to the data range from
`a + 1` up to the next header index when one exists, else up to the grid
length. -/
theorem blockRanges_get (hs : List ℕ) (n : ℕ) :
    ∀ (i a : ℕ), hs[i]? = some a →
      (blockRanges hs n)[i]? = some (a + 1, (hs[i + 1]?).getD n) := by
  induction hs with
  | nil =>
    intro i a h
    simp at h
  | cons h1 tl ih =>
    intro i a hia
    cases tl with
    | nil =>
      cases i with
      | zero =>
        simp only [List.getElem?_cons_zero, Option.some.injEq] at hia
        subst hia
        simp [blockRanges]
      | succ j => simp at hia
    | cons h2 tl2 =>
      cases i with
      | zero =>
        simp only [List.getElem?_cons_zero, Option.some.injEq] at hia
        subst hia
        simp [blockRanges]
      | succ j =>
        have h := ih j a (by simpa using hia)
        simpa [blockRanges] using h

/-- C5: segmentation cuts the grid at the sorted header-candidate indices —
the block of a non-final candidate `a` spans the rows strictly between `a`
and the next candidate, the final candidate's block runs to the end of the
grid, and on the concrete 15-row grid with candidates at rows 2 and 9 this
gives exactly the two blocks of rows 3-8 and 10-14. -/
theorem c5_segmentation :
    (∀ (hs : List ℕ) (n i a b : ℕ), hs[i]? = some a → hs[i + 1]? = some b →
      (blockRanges hs n)[i]? = some (a + 1, b)) ∧
    (∀ (hs : List ℕ) (n i a : ℕ), hs[i]? = some a → hs[i + 1]? = none →
      (blockRanges hs n)[i]? = some (a + 1, n)) ∧
    possibleHeaderIndices demoGrid = [2, 9] ∧
    demoGrid.length = 15 ∧
    blockRanges [2, 9] 15 = [(3, 9), (10, 15)] ∧
    (blockRanges [2, 9] 15).map (fun p => List.range' p.1 (p.2 - p.1)) =
      [[3, 4, 5, 6, 7, 8], [10, 11, 12, 13, 14]] := by
  refine ⟨?_, ?_, by decide, by decide, by decide, by decide⟩
  · intro hs n i a b ha hb
    have h := blockRanges_get hs n i a ha
    rw [hb] at h
    simpa using h
  · intro hs n i a ha hb
    have h := blockRanges_get hs n i a ha
    rw [hb] at h
    simpa using h

/-- Witness for C5: at the concrete candidate list `[2, 9]` of the 15-row
grid the two data ranges are rows 3-8 and rows 10-14. -/
theorem c5_witness :
    (blockRanges [2, 9] 15)[0]? = some (3, 9) ∧
    (blockRanges [2, 9] 15)[1]? = some (10, 15) :=
  ⟨c5_segmentation.1 [2, 9] 15 0 2 9 (by decide) (by decide),
   c5_segmentation.2.1 [2, 9] 15 1 9 (by decide) (by decide)⟩

/-! ## C6 -/

/-- C6: when the parse stage produces zero tables, `process_douyin_export`
raises `ValueError("未能解析出任何表格数据")` instead of returning an empty
dataset, and conversely every successful run started from a non-empty table
mapping. -/
theorem c6_zero_tables_error :
    process_douyin_export [] = Except.error "未能解析出任何表格数据" ∧
    (∀ (tables : List (String × ℕ)) (name : String),
      process_douyin_export tables = Except.ok name → ¬ (tables = [])) := by
  constructor
  · rfl
  · intro tables name h htables
    subst htables
    simp [process_douyin_export] at h

/-- Witness for C6: a concrete one-table parse succeeds, hence is non-empty. -/
theorem c6_witness : ¬ (([("抖音销量榜", 3)] : List (String × ℕ)) = []) :=
  c6_zero_tables_error.2 [("抖音销量榜", 3)] "抖音销量榜" rfl

/-! ## C8 -/

/-- C8: "20%" in the commission-percentage column is scaled to 0.2, "20%"
in a conversion-rate column gives 0.2 in all three range outputs, and "20%"
in a fuzzy column not classified as percentage keeps the raw parsed value
20 in all three outputs. -/
theorem c8_percentage_scaling :
    clean_commission_value (some "20%") = some (1/5) ∧
    clean_rate_series [some "20%"] = ([some (1/5)], [some (1/5)], [some (1/5)]) ∧
    parse_fuzzy_numeric_range [some "20%"] 1 = ([some 20], [some 20], [some 20]) := by
  have h : (mkRat 1 5 : ℚ) = 1/5 := by
    rw [Rat.mkRat_eq_div]
    norm_num
  refine ⟨?_, ?_, by decide⟩
  · have e : clean_commission_value (some "20%") = some (mkRat 1 5) := by decide
    rw [e, h]
  · have e : clean_rate_series [some "20%"] =
        ([some (mkRat 1 5)], [some (mkRat 1 5)], [some (mkRat 1 5)]) := by decide
    rw [e, h]

/-! ## C9 -/

/-- C9: the de-duplication loop maps the header row ["商品","商品","商品"]
to ["商品","商品_1","商品_2"] as documented, but it does NOT guarantee
pairwise-unique output: when a cell already carries a suffixed name, as in
["商品","商品","商品_1"], the output contains "商品_1" twice, contradicting
the uniqueness the code comment and the data-model invariant promise. -/
theorem c9_header_dedup_bug :
    uniqueHeader ["商品", "商品", "商品"] = ["商品", "商品_1", "商品_2"] ∧
    uniqueHeader ["商品", "商品", "商品_1"] = ["商品", "商品_1", "商品_1"] ∧
    ¬ (uniqueHeader ["商品", "商品", "商品_1"]).Nodup := by
  refine ⟨by decide, by decide, by decide⟩
